import Mathlib

/-!
Verification of the AeroPropulse Level 3 engine estimator (src/app.py).

The script computes a single steady-state Brayton-cycle operating point from
slider inputs.  Each line of the computational core is embedded below as a
Lean definition: the slider values that Python treats as `int` (base TIT,
material lookup) are embedded over `ℤ`/`String`; all floating-point physics
is embedded over `ℝ`, with Python's `**` on real exponents embedded as
`Real.rpow` and `np.sqrt` as `Real.sqrt`.
-/

namespace AeroPropulse

/-- Constant `LHV = 43_000_000` (app.py line 6). -/
def LHV : ℝ := 43000000

/-- Constant `GAMMA_AIR = 1.4` (app.py line 7). -/
def GAMMA_AIR : ℝ := 1.4

/-- Constant `GAMMA_GAS = 1.33` (app.py line 8). -/
def GAMMA_GAS : ℝ := 1.33

/-- Constant `CP_AIR = 1005` (app.py line 9). -/
def CP_AIR : ℝ := 1005

/-- Constant `CP_GAS = 1150` (app.py line 10). -/
def CP_GAS : ℝ := 1150

/-- Constant `CO2_FACTOR = 3.15` (app.py line 11). -/
def CO2_FACTOR : ℝ := 3.15

/-- `get_max_safe_temp` (app.py lines 39-42): conditional chain over the
material name, with `1900` as the fall-through branch. -/
def get_max_safe_temp (mat : String) : ℤ :=
  if mat = "Stainless Steel" then 900
  else if mat = "Inconel 718" then 1350
  else 1900

/-- `actual_tit = min(base_tit, max_temp)` (app.py line 45); both operands are
Python ints (slider value and lookup result). -/
def actual_tit (base_tit : ℤ) (mat : String) : ℤ :=
  min base_tit (get_max_safe_temp mat)

/-- The throttle warning condition `actual_tit < base_tit` (app.py line 85)
that gates the "Performance Throttled!" banner. -/
def throttle_active (base_tit : ℤ) (mat : String) : Bool :=
  decide (actual_tit base_tit mat < base_tit)

/-- `pr = 10 + (rpm / 16000)**2 * 40` (app.py line 36). -/
noncomputable def pr (rpm : ℝ) : ℝ := 10 + (rpm / 16000) ^ 2 * 40

/-- `t_amb = 288.15 - (0.00198 * alt)` (app.py line 48). -/
noncomputable def t_amb (alt : ℝ) : ℝ := 288.15 - 0.00198 * alt

/-- `p_amb = 101325 * (t_amb / 288.15)**5.256` (app.py line 49). -/
noncomputable def p_amb (alt : ℝ) : ℝ :=
  101325 * (t_amb alt / 288.15) ^ (5.256 : ℝ)

/-- `v_flight = mach * np.sqrt(GAMMA_AIR * 287 * t_amb)` (app.py line 50). -/
noncomputable def v_flight (alt mach : ℝ) : ℝ :=
  mach * Real.sqrt (GAMMA_AIR * 287 * t_amb alt)

/-- `t2 = t_amb * (1 + 0.5 * (GAMMA_AIR - 1) * mach**2)` (app.py line 52). -/
noncomputable def t2 (alt mach : ℝ) : ℝ :=
  t_amb alt * (1 + 0.5 * (GAMMA_AIR - 1) * mach ^ 2)

/-- `p2 = p_amb * (t2 / t_amb)**(GAMMA_AIR / (GAMMA_AIR - 1))` (app.py line 53). -/
noncomputable def p2 (alt mach : ℝ) : ℝ :=
  p_amb alt * (t2 alt mach / t_amb alt) ^ (GAMMA_AIR / (GAMMA_AIR - 1))

/-- `p3 = p2 * pr` (app.py line 54). -/
noncomputable def p3 (alt mach rpm : ℝ) : ℝ := p2 alt mach * pr rpm

/-- `t3 = t2 + (t2 * (pr**((GAMMA_AIR-1)/GAMMA_AIR)) - t2) / 0.88` (app.py
line 55); the compressor efficiency is the hard-coded literal `0.88`. -/
noncomputable def t3 (alt mach rpm : ℝ) : ℝ :=
  t2 alt mach +
    (t2 alt mach * pr rpm ^ ((GAMMA_AIR - 1) / GAMMA_AIR) - t2 alt mach) / 0.88

/-- `f = (CP_GAS * actual_tit - CP_AIR * t3) / (0.98 * LHV - CP_GAS * actual_tit)`
(app.py line 57): the fuel-air ratio, computed unconditionally with no guard. -/
noncomputable def f (alt mach rpm : ℝ) (base_tit : ℤ) (mat : String) : ℝ :=
  (CP_GAS * ((actual_tit base_tit mat : ℤ) : ℝ) - CP_AIR * t3 alt mach rpm) /
    (0.98 * LHV - CP_GAS * ((actual_tit base_tit mat : ℤ) : ℝ))

/-- `t5 = actual_tit - (CP_AIR * (t3 - t2)) / ((1 + f) * CP_GAS)` (app.py line 58). -/
noncomputable def t5 (alt mach rpm : ℝ) (base_tit : ℤ) (mat : String) : ℝ :=
  ((actual_tit base_tit mat : ℤ) : ℝ) -
    CP_AIR * (t3 alt mach rpm - t2 alt mach) /
      ((1 + f alt mach rpm base_tit mat) * CP_GAS)

/-- `p5 = p3 * (t5 / actual_tit)**(GAMMA_GAS / ((GAMMA_GAS - 1) * 0.92))`
(app.py line 59). -/
noncomputable def p5 (alt mach rpm : ℝ) (base_tit : ℤ) (mat : String) : ℝ :=
  p3 alt mach rpm *
    (t5 alt mach rpm base_tit mat / ((actual_tit base_tit mat : ℤ) : ℝ)) ^
      (GAMMA_GAS / ((GAMMA_GAS - 1) * 0.92))

/-- The nozzle formula of app.py line 60 as a function of the turbine-exit
temperature, turbine-exit pressure and ambient pressure:
`np.sqrt(max(0, 2 * CP_GAS * t5 * (1 - (p_amb/p5)**((GAMMA_GAS-1)/GAMMA_GAS))))`. -/
noncomputable def exit_velocity (t5v p5v pambv : ℝ) : ℝ :=
  Real.sqrt (max 0 (2 * CP_GAS * t5v * (1 - (pambv / p5v) ^ ((GAMMA_GAS - 1) / GAMMA_GAS))))

/-- `v_e` (app.py line 60) applied to the pipeline states. -/
noncomputable def v_e (alt mach rpm : ℝ) (base_tit : ℤ) (mat : String) : ℝ :=
  exit_velocity (t5 alt mach rpm base_tit mat) (p5 alt mach rpm base_tit mat) (p_amb alt)

/-- `m_dot_actual = m_dot_ref * (rpm / 12000) * (p_amb / 101325)` (app.py line 63). -/
noncomputable def m_dot_actual (m_dot_ref rpm alt : ℝ) : ℝ :=
  m_dot_ref * (rpm / 12000) * (p_amb alt / 101325)

/-- The specific-thrust subexpression `(1 + f) * v_e - v_flight` shared by
app.py lines 64 and 65, as a function of fuel-air ratio, exhaust velocity
and flight velocity. -/
noncomputable def specific_thrust (fr ve vf : ℝ) : ℝ := (1 + fr) * ve - vf

/-- `sfc = (f / ((1 + f) * v_e - v_flight)) * 1_000_000` (app.py line 65),
computed unconditionally with no guard on the sign of the denominator. -/
noncomputable def sfc (fr ve vf : ℝ) : ℝ := fr / ((1 + fr) * ve - vf) * 1000000

/-- `thrust_total = m_dot_actual * ((1 + f) * v_e - v_flight)` (app.py line 64). -/
noncomputable def thrust_total (alt mach rpm m_dot_ref : ℝ) (base_tit : ℤ) (mat : String) : ℝ :=
  m_dot_actual m_dot_ref rpm alt *
    specific_thrust (f alt mach rpm base_tit mat) (v_e alt mach rpm base_tit mat)
      (v_flight alt mach)

/-- `fuel_flow_hr = f * m_dot_actual * 3600` (app.py line 68). -/
noncomputable def fuel_flow_hr (alt mach rpm m_dot_ref : ℝ) (base_tit : ℤ) (mat : String) : ℝ :=
  f alt mach rpm base_tit mat * m_dot_actual m_dot_ref rpm alt * 3600

/-- `co2_hr = fuel_flow_hr * CO2_FACTOR` (app.py line 69). -/
noncomputable def co2_hr (alt mach rpm m_dot_ref : ℝ) (base_tit : ℤ) (mat : String) : ℝ :=
  fuel_flow_hr alt mach rpm m_dot_ref base_tit mat * CO2_FACTOR

/-- `stress_mpa = (rpm / 1000)**2 * 2.5` (app.py line 70); exact rational
arithmetic, so embedded over `ℚ`. -/
def stress_mpa (rpm : ℚ) : ℚ := (rpm / 1000) ^ 2 * 2.5

/-- The condition of the structural-panel banner (app.py line 97):
`actual_tit >= max_temp and base_tit > max_temp` selects the CRITICAL error
banner; otherwise the success banner is shown. -/
def critical_banner (base_tit : ℤ) (mat : String) : Bool :=
  decide (get_max_safe_temp mat ≤ actual_tit base_tit mat) &&
    decide (get_max_safe_temp mat < base_tit)

/-- Modelled from the spec (section 4.8): the per-material temperature-de-rated
yield strength `max(0, base - slope*(T - T_ref))` with
(500 MPa @300K, slope 0.8), (1000 MPa @400K, slope 0.5),
(1200 MPa @600K, slope 0.3).  No yield-strength computation exists anywhere
in src/app.py; this definition exists only to compare the code's structural
output against the spec's intended pass criterion. -/
def yield_from_spec (mat : String) (temp : ℚ) : ℚ :=
  if mat = "Stainless Steel" then max 0 (500 - 0.8 * (temp - 300))
  else if mat = "Inconel 718" then max 0 (1000 - 0.5 * (temp - 400))
  else max 0 (1200 - 0.3 * (temp - 600))

/-! ## Claims -/

/-- C1: for every requested base TIT and material, the TIT actually used is
`min(requested, material limit)`, the throttle warning fires exactly when
`actual_tit < base_tit` (strict), and in particular at `base_tit = limit`
the throttle is not active. -/
theorem C1_thermal_throttle (b : ℤ) (mat : String) :
    actual_tit b mat = min b (get_max_safe_temp mat) ∧
    (throttle_active b mat = true ↔ actual_tit b mat < b) ∧
    throttle_active (get_max_safe_temp mat) mat = false := by
  refine ⟨rfl, ?_, ?_⟩
  · simp [throttle_active]
  · simp [throttle_active, actual_tit]

/-- C7: the RPM-derived pressure ratio is the quadratic scaling
`PR_min + (RPM/RPM_max)^2 * (PR_max - PR_min)` with `PR_min = 10`,
`PR_max = 50`, `RPM_max = 16000`. -/
theorem C7_pr_from_rpm (rpm : ℝ) :
    pr rpm = 10 + (rpm / 16000) ^ 2 * (50 - 10) := by
  unfold pr; ring

/-- C8: the actual air mass flow is `m_dot_ref * (RPM/12000) * (p_amb/101325)`,
hence scales linearly in RPM and in the reference mass flow (the ambient
pressure ratio enters as the linear factor `p_amb/101325`). -/
theorem C8_mass_flow (m r alt c : ℝ) :
    m_dot_actual m r alt = m * (r / 12000) * (p_amb alt / 101325) ∧
    m_dot_actual m (c * r) alt = c * m_dot_actual m r alt ∧
    m_dot_actual (c * m) r alt = c * m_dot_actual m r alt := by
  refine ⟨rfl, ?_, ?_⟩ <;> · unfold m_dot_actual; ring

/-- C10: `get_max_safe_temp` is total over arbitrary strings: every material
other than "Stainless Steel" and "Inconel 718" takes the fall-through branch
and yields 1900. -/
theorem C10_material_default (mat : String)
    (h1 : mat ≠ "Stainless Steel") (h2 : mat ≠ "Inconel 718") :
    get_max_safe_temp mat = 1900 := by
  unfold get_max_safe_temp
  rw [if_neg h1, if_neg h2]

/-- Witness for C10 at the concrete material "CMSX-4 Superalloy". -/
theorem C10_material_default_witness :
    get_max_safe_temp ("CMSX-4 Superalloy") = 1900 :=
  C10_material_default ("CMSX-4 Superalloy") (by decide) (by decide)

/-- C3 counterexample: at fuel-air ratio 0.02, exhaust velocity 0 m/s and
flight velocity 100 m/s the specific thrust is negative, yet the code's SFC
expression still evaluates (to the finite value -200): no `DomainError`
exists, refuting the claim that evaluation fails on non-positive net thrust. -/
theorem C3_counterexample :
    specific_thrust 0.02 0 100 < 0 ∧ sfc 0.02 0 100 = -200 := by
  constructor <;> norm_num [specific_thrust, sfc]

/-- C3 (amended): the code computes SFC unconditionally; whenever the
specific thrust is negative and the fuel-air ratio is positive, the code
silently returns a negative SFC instead of failing. -/
theorem C3_sfc_unguarded (fr ve vf : ℝ)
    (hst : specific_thrust fr ve vf < 0) (hf : 0 < fr) :
    sfc fr ve vf < 0 := by
  unfold specific_thrust at hst
  unfold sfc
  have h := div_neg_of_pos_of_neg hf hst
  linarith

/-- Witness for the amended C3 at (f, v_e, v_flight) = (0.02, 0, 100). -/
theorem C3_sfc_unguarded_witness : sfc 0.02 0 100 < 0 :=
  C3_sfc_unguarded 0.02 0 100 (by norm_num [specific_thrust]) (by norm_num)

/-- C5 counterexample: at RPM 16000, material "Stainless Steel", base TIT
800 K the structural panel shows the success banner (the banner condition is
false), yet the applied stress (640 MPa) exceeds the spec's yield strength at
the operating temperature (100 MPa): the displayed pass state is not
`stress ≤ yield`, and no safety factor is computed anywhere in the code. -/
theorem C5_counterexample :
    critical_banner 800 ("Stainless Steel") = false ∧
    yield_from_spec ("Stainless Steel") 800 < stress_mpa 16000 := by
  constructor
  · decide
  · norm_num [yield_from_spec, stress_mpa]

/-- C5 (amended): the structural display contains only the applied
centrifugal stress; the only pass/fail banner in the structural panel tests
the thermal condition `actual_tit >= max_temp and base_tit > max_temp`,
which is equivalent to `base_tit > material limit` — not `stress ≤ yield`. -/
theorem C5_structural_banner (b : ℤ) (mat : String) :
    critical_banner b mat = true ↔ get_max_safe_temp mat < b := by
  simp only [critical_banner, actual_tit, Bool.and_eq_true, decide_eq_true_eq]
  omega

/-- C4: whenever the back-pressure ratio `p_amb/p5` is at least 1 (with a
positive turbine-exit pressure and nonnegative turbine-exit temperature),
the radicand of the exhaust-velocity formula is clamped by `max(0, ...)` and
the exhaust velocity is exactly 0 — a real number, not NaN or complex. -/
theorem C4_exit_velocity_clamp (t5v p5v pambv : ℝ)
    (ht5 : 0 ≤ t5v) (_hp5 : 0 < p5v) (hr : 1 ≤ pambv / p5v) :
    exit_velocity t5v p5v pambv = 0 := by
  have hexp : (0 : ℝ) ≤ (GAMMA_GAS - 1) / GAMMA_GAS := by unfold GAMMA_GAS; norm_num
  have h1 : (1 : ℝ) ≤ (pambv / p5v) ^ ((GAMMA_GAS - 1) / GAMMA_GAS) := by
    calc (1 : ℝ) = (1 : ℝ) ^ ((GAMMA_GAS - 1) / GAMMA_GAS) := (Real.one_rpow _).symm
    _ ≤ (pambv / p5v) ^ ((GAMMA_GAS - 1) / GAMMA_GAS) :=
        Real.rpow_le_rpow (by norm_num) hr hexp
  have hc : (0 : ℝ) ≤ 2 * CP_GAS * t5v := by unfold CP_GAS; nlinarith
  have hrad : 2 * CP_GAS * t5v * (1 - (pambv / p5v) ^ ((GAMMA_GAS - 1) / GAMMA_GAS)) ≤ 0 := by
    nlinarith
  unfold exit_velocity
  rw [max_eq_left hrad, Real.sqrt_zero]

/-- Witness for C4 at (t5, p5, p_amb) = (288, 101325, 202650). -/
theorem C4_exit_velocity_clamp_witness : exit_velocity 288 101325 202650 = 0 :=
  C4_exit_velocity_clamp 288 101325 202650 (by norm_num) (by norm_num) (by norm_num)

/-- Auxiliary bound: `50 ^ (2/7) ≥ 3`, since `3^7 = 2187 ≤ 2500 = 50^2`. -/
theorem fifty_rpow_two_sevenths_ge_three : (3 : ℝ) ≤ (50 : ℝ) ^ ((2 : ℝ) / 7) := by
  have h50 : (50 : ℝ) ^ ((2 : ℝ) / 7) = ((50 : ℝ) ^ (2 : ℝ)) ^ ((1 : ℝ) / 7) := by
    rw [← Real.rpow_mul (by norm_num : (0 : ℝ) ≤ 50)]
    norm_num
  have h2500 : ((50 : ℝ) ^ (2 : ℝ)) = 2500 := by
    rw [show (2 : ℝ) = ((2 : ℕ) : ℝ) by norm_num, Real.rpow_natCast]
    norm_num
  have h3 : (3 : ℝ) = (2187 : ℝ) ^ ((1 : ℝ) / 7) := by
    have h7 : (2187 : ℝ) = (3 : ℝ) ^ ((7 : ℕ) : ℝ) := by
      rw [Real.rpow_natCast]; norm_num
    rw [h7, ← Real.rpow_mul (by norm_num : (0 : ℝ) ≤ 3)]
    norm_num
  rw [h50, h2500, h3]
  exact Real.rpow_le_rpow (by norm_num) (by norm_num) (by norm_num)

/-- C2 counterexample: at the in-range input (altitude 0 ft, Mach 2.5,
RPM 16000, base TIT 1000 K, material "Stainless Steel") the fuel-air ratio
computed by app.py line 57 is negative, and the code returns it silently:
no `DomainError` (`NegativeFuelAirRatio`) exists anywhere in the code. -/
theorem C2_counterexample : f 0 2.5 16000 1000 ("Stainless Steel") < 0 := by
  have hm : actual_tit 1000 ("Stainless Steel") = 900 := by decide
  have hpr : pr 16000 = 50 := by unfold pr; norm_num
  have he : (GAMMA_AIR - 1) / GAMMA_AIR = (2 : ℝ) / 7 := by unfold GAMMA_AIR; norm_num
  have hA : (3 : ℝ) ≤ pr 16000 ^ ((GAMMA_AIR - 1) / GAMMA_AIR) := by
    rw [hpr, he]; exact fifty_rpow_two_sevenths_ge_three
  have ht2 : t2 0 2.5 = 288.15 * 2.25 := by
    unfold t2 t_amb GAMMA_AIR; norm_num
  have ht3 : (2121 : ℝ) ≤ t3 0 2.5 16000 := by
    unfold t3
    rw [ht2, show ∀ x : ℝ, x / 0.88 = x * (1 / 0.88) from fun x => by ring]
    nlinarith [hA]
  unfold f
  rw [hm]
  push_cast
  apply div_neg_of_neg_of_pos
  · unfold CP_GAS CP_AIR
    nlinarith [ht3]
  · unfold CP_GAS LHV
    norm_num

/-- C2 (amended): no `DomainError` mechanism exists in the code; the
combustor denominator `0.98*LHV - CP_GAS*actual_tit` is strictly positive for
every base TIT and material (since `actual_tit ≤ material limit ≤ 1900`),
so the denominator guard can never be needed, while a negative fuel-air
ratio is reachable and returned unguarded (see the counterexample). -/
theorem C2_denominator_positive (b : ℤ) (mat : String) :
    0 < 0.98 * LHV - CP_GAS * ((actual_tit b mat : ℤ) : ℝ) := by
  have h1 : actual_tit b mat ≤ get_max_safe_temp mat := by
    unfold actual_tit
    exact min_le_right _ _
  have h2 : get_max_safe_temp mat ≤ 1900 := by
    unfold get_max_safe_temp
    split_ifs <;> omega
  have h' : ((actual_tit b mat : ℤ) : ℝ) ≤ 1900 := by exact_mod_cast h1.trans h2
  unfold LHV CP_GAS
  nlinarith

/-- C6: over altitudes in [0, 50000] ft the ambient temperature
`288.15 - 0.00198*alt` and the ambient pressure
`101325*(T_amb/288.15)^5.256` are both strictly decreasing. -/
theorem C6_atmosphere_strictly_decreasing (a1 a2 : ℝ)
    (_h0 : 0 ≤ a1) (h12 : a1 < a2) (h2 : a2 ≤ 50000) :
    t_amb a2 < t_amb a1 ∧ p_amb a2 < p_amb a1 := by
  have hT : t_amb a2 < t_amb a1 := by unfold t_amb; nlinarith
  have hpos : 0 < t_amb a2 := by unfold t_amb; nlinarith
  refine ⟨hT, ?_⟩
  unfold p_amb
  have hdiv : t_amb a2 / 288.15 < t_amb a1 / 288.15 :=
    (div_lt_div_iff_of_pos_right (by norm_num)).mpr hT
  have hnn : (0 : ℝ) ≤ t_amb a2 / 288.15 := div_nonneg hpos.le (by norm_num)
  have hrp := Real.rpow_lt_rpow hnn hdiv (by norm_num : (0 : ℝ) < 5.256)
  nlinarith [hrp]

/-- Witness for C6 at the altitude pair (0, 50000). -/
theorem C6_atmosphere_strictly_decreasing_witness :
    t_amb 50000 < t_amb 0 ∧ p_amb 50000 < p_amb 0 :=
  C6_atmosphere_strictly_decreasing 0 50000 (by norm_num) (by norm_num) (by norm_num)

/-- C9: for altitudes in [0, 50000] ft (so `t_amb > 0`) and any Mach ≥ 0,
the inlet raises the temperature (`t2 ≥ t_amb`) and the compressor raises it
further (`t3 ≥ t2`), the latter because the RPM-derived pressure ratio is
always ≥ 10 ≥ 1 and the hard-coded efficiency 0.88 is positive. -/
theorem C9_station_temperatures_monotone (alt mach rpm : ℝ)
    (_h0 : 0 ≤ alt) (h5 : alt ≤ 50000) (_hm : 0 ≤ mach) :
    t_amb alt ≤ t2 alt mach ∧ t2 alt mach ≤ t3 alt mach rpm := by
  have hta : 0 < t_amb alt := by unfold t_amb; nlinarith
  have h1 : t_amb alt ≤ t2 alt mach := by
    unfold t2 GAMMA_AIR
    nlinarith [mul_nonneg hta.le (sq_nonneg mach)]
  have ht2pos : 0 < t2 alt mach := by
    unfold t2 GAMMA_AIR
    nlinarith [mul_nonneg hta.le (sq_nonneg mach)]
  have hpr : (1 : ℝ) ≤ pr rpm := by
    unfold pr
    nlinarith [sq_nonneg (rpm / 16000)]
  have hexp : (0 : ℝ) ≤ (GAMMA_AIR - 1) / GAMMA_AIR := by unfold GAMMA_AIR; norm_num
  have hrp : (1 : ℝ) ≤ pr rpm ^ ((GAMMA_AIR - 1) / GAMMA_AIR) := by
    calc (1 : ℝ) = (1 : ℝ) ^ ((GAMMA_AIR - 1) / GAMMA_AIR) := (Real.one_rpow _).symm
    _ ≤ pr rpm ^ ((GAMMA_AIR - 1) / GAMMA_AIR) := Real.rpow_le_rpow (by norm_num) hpr hexp
  refine ⟨h1, ?_⟩
  unfold t3
  have hnn : 0 ≤ (t2 alt mach * pr rpm ^ ((GAMMA_AIR - 1) / GAMMA_AIR) - t2 alt mach) / 0.88 := by
    apply div_nonneg _ (by norm_num)
    nlinarith
  linarith

/-- Witness for C9 at altitude 0, Mach 0, RPM 12000. -/
theorem C9_station_temperatures_monotone_witness :
    t_amb 0 ≤ t2 0 0 ∧ t2 0 0 ≤ t3 0 0 12000 :=
  C9_station_temperatures_monotone 0 0 12000 (by norm_num) (by norm_num) (by norm_num)

end AeroPropulse
